import Mathlib

/-!
Verification development for `solana_project_quiz.py`, an interactive
terminal quiz program.

The Python program is shallowly embedded as follows:

* `Question` mirrors the dictionaries in `SolanaProjectQuiz.__init__`;
  `questionBank` is the full 30-entry hard-coded bank.
* `SolanaProjectQuiz` mirrors the object state (`questions`, `score`,
  `total_questions`).
* Console I/O is explicit: user input is a list of `InputEvent`s (a typed
  line, or a keyboard interrupt delivered while blocked on `input()`);
  everything printed is a list of `OutEvent`s, one per `print` of interest,
  carrying the printed data.
* Randomness is an oracle of natural-number picks. `random.sample` is
  modelled by `pySample` / `sampleAux`: repeatedly pick an index into the
  remaining pool and remove the chosen element (sampling without
  replacement), with Python's `ValueError` guard `0 <= k <= len(population)`
  made explicit. `random.shuffle` is modelled extensionally by
  `shuffleWith`: drawing all elements without replacement, i.e. producing a
  permutation of the list (an out-of-range oracle leaves the list
  unchanged, which is also a permutation).
* `int(...)` on a stripped input string is modelled by `pyInt`
  (optional sign, digits, underscores allowed only between digits,
  surrounding whitespace ignored).
* Uncaught exceptions (`ValueError` from `random.sample`, `EOFError` from
  `input()` on an exhausted stream) terminate the run and are reflected in
  `RunEnding` / `MainOutcome`; `exitCode` records the process exit status
  (0 for a normal return from `main`, 1 for `sys.exit(1)` and for an
  uncaught exception).
* Percentages (Python floats) are modelled exactly as rationals; for the
  score/answered counts reachable here the float comparisons against the
  tier bounds agree with the exact rational ones.
-/

/-- One entry of the hard-coded question list in `SolanaProjectQuiz.__init__`. -/
structure Question where
  question : String
  options : List String
  correct : Nat
  explanation : String
deriving DecidableEq

/-- The 30-question bank built in `SolanaProjectQuiz.__init__`
(`self.questions`), transcribed verbatim. -/
def questionBank : List Question := [
  { question := "When minting a patent NFT, which file contains the Rust program logic?",
    options := ["programs/patent-nft/src/lib.rs", "app/sdk.ts"],
    correct := 0,
    explanation := "programs/patent-nft/src/lib.rs:52 (mint_patent_nft) contains the on-chain program logic" },
  { question := "What PDA seeds are used to derive the patent registry account?",
    options := ["[b\x27state\x27]", "[b\x27patent\x27, patent_hash]"],
    correct := 1,
    explanation := "Patent registry uses [b\x27patent\x27, patent_hash] to ensure each patent can only be minted once" },
  { question := "Which SDK function prepares the minting transaction?",
    options := ["app/sdk.ts:147 (PatentNFTSDK.mintPatentNFT)", "app/sdk.ts:330 (NFTMarketplaceSDK.listNFT)"],
    correct := 0,
    explanation := "PatentNFTSDK.mintPatentNFT() derives PDAs and builds the minting transaction" },
  { question := "What is the minimum minting fee required?",
    options := ["0.025 SOL", "0.05 SOL"],
    correct := 1,
    explanation := "programs/patent-nft/src/lib.rs:53 verifies payment >= 0.05 SOL" },
  { question := "Which program is called via CPI to create NFT metadata?",
    options := ["SPL Token Program", "Metaplex Token Metadata Program"],
    correct := 1,
    explanation := "Metaplex Token Metadata Program is called to create NFT metadata and master edition" },
  { question := "When listing an NFT, where is the NFT transferred to?",
    options := ["Marketplace program account", "Escrow ATA owned by listing PDA"],
    correct := 1,
    explanation := "NFT is transferred to an Associated Token Account owned by the listing PDA for escrow" },
  { question := "What percentage marketplace fee is collected on sales?",
    options := ["2.5%", "5%"],
    correct := 0,
    explanation := "programs/nft-marketplace/src/lib.rs:102 calculates 2.5% platform fee" },
  { question := "Which instruction handles buying an NFT from the marketplace?",
    options := ["programs/nft-marketplace/src/lib.rs:97 (buy_nft)", "programs/nft-marketplace/src/lib.rs:52 (list_nft)"],
    correct := 0,
    explanation := "buy_nft() handles the purchase, fee distribution, and NFT transfer" },
  { question := "What is PSP in the Solana version?",
    options := ["An ERC-20 token", "An SPL Token"],
    correct := 1,
    explanation := "PSP (Patent Search Pennies) is an SPL Token on Solana, not ERC-20" },
  { question := "How many PSP tokens equal 1 SOL by default?",
    options := ["100 PSP", "1,000 PSP"],
    correct := 1,
    explanation := "Default exchange rate is 1 SOL = 1,000 PSP (configurable)" },
  { question := "Which program handles multi-token payment for searches?",
    options := ["programs/search-payment/src/lib.rs", "programs/psp-token/src/lib.rs"],
    correct := 0,
    explanation := "search-payment program supports SOL, USDC, and PSP payments" },
  { question := "What Anchor constraint verifies account ownership?",
    options := ["#[account(signer)]", "#[account(has_one = authority)]"],
    correct := 1,
    explanation := "has_one constraint verifies that an account field matches the expected value" },
  { question := "How does Solana prevent reentrancy attacks?",
    options := ["nonReentrant modifier", "Explicit account passing and Rust borrow checker"],
    correct := 1,
    explanation := "Solana\x27s architecture and Rust\x27s borrow checker prevent reentrancy without modifiers" },
  { question := "What is the typical transaction fee on Solana?",
    options := ["~$0.0005 (0.0005 SOL)", "~$50 (variable gas)"],
    correct := 0,
    explanation := "Solana has fixed, low fees around 0.0005 SOL (~$0.05)" },
  { question := "How long does transaction finality take on Solana?",
    options := ["~15 seconds", "~400ms"],
    correct := 1,
    explanation := "Solana achieves finality in ~400ms vs ~15 seconds on Ethereum" },
  { question := "Which file contains the TypeScript SDK for frontend integration?",
    options := ["app/sdk.ts", "tests/patent-nft.ts"],
    correct := 0,
    explanation := "app/sdk.ts (503 lines) contains all SDK classes for frontend integration" },
  { question := "What command runs the Anchor test suite?",
    options := ["npm test", "anchor test"],
    correct := 1,
    explanation := "anchor test builds, deploys to localnet, and runs tests" },
  { question := "Where is the Anchor configuration stored?",
    options := ["Anchor.toml", "anchor.config.js"],
    correct := 0,
    explanation := "Anchor.toml contains program IDs, cluster URLs, and build settings" },
  { question := "What is the maximum supply of PSP tokens?",
    options := ["1,000,000 PSP", "10,000,000 PSP"],
    correct := 1,
    explanation := "programs/psp-token/src/lib.rs sets max supply to 10 million PSP" },
  { question := "Which Metaplex account type represents NFT ownership?",
    options := ["Metadata Account", "Master Edition Account"],
    correct := 1,
    explanation := "Master Edition Account represents limited supply NFTs (supply = 0 for unique NFTs)" },
  { question := "What happens if you try to mint the same patent twice?",
    options := ["Second mint succeeds with new token", "Transaction fails - patent already exists"],
    correct := 1,
    explanation := "Patent registry PDA prevents duplicate minting - transaction fails if patent exists" },
  { question := "How are program events emitted in Anchor?",
    options := ["emit!(EventName \x7b ... \x7d)", "event.emit(EventName \x7b ... \x7d)"],
    correct := 0,
    explanation := "Anchor uses emit! macro to emit events to transaction logs" },
  { question := "What is rent-exempt balance?",
    options := ["Minimum balance to keep account alive", "Fee paid per transaction"],
    correct := 0,
    explanation := "Accounts must maintain minimum balance (rent-exempt) to avoid deletion" },
  { question := "Which instruction can pause the PSP token program?",
    options := ["programs/psp-token/src/lib.rs:pause()", "programs/psp-token/src/lib.rs:stop()"],
    correct := 0,
    explanation := "pause() instruction sets state.paused = true to disable critical functions" },
  { question := "What is a Program Derived Address (PDA)?",
    options := ["A user\x27s wallet address", "A deterministic address derived from seeds"],
    correct := 1,
    explanation := "PDAs are deterministic addresses derived from seeds without private keys" },
  { question := "Which program controls the escrow NFT during listing?",
    options := ["The seller", "The listing PDA (marketplace program)"],
    correct := 1,
    explanation := "Listing PDA owns the escrow ATA, giving the program control over the NFT" },
  { question := "What is Cross-Program Invocation (CPI)?",
    options := ["Calling other programs from your program", "Calling frontend from program"],
    correct := 0,
    explanation := "CPI allows programs to call other programs (e.g., SPL Token, Metaplex)" },
  { question := "How many programs are in the Solana project?",
    options := ["2 programs", "4 programs"],
    correct := 1,
    explanation := "4 programs: patent-nft, psp-token, nft-marketplace, search-payment" },
  { question := "What is the total lines of Rust code across all programs?",
    options := ["~1,000 lines", "~1,808 lines"],
    correct := 1,
    explanation := "Total: 415 + 483 + 394 + 516 = 1,808 lines of Rust" },
  { question := "Which file would you check to understand the complete minting flow?",
    options := ["TEACHME.md - FLOW 1: Minting a Patent NFT", "README.md - Installation"],
    correct := 0,
    explanation := "TEACHME.md contains detailed execution flows showing all files and accounts involved" }]

/-- Object state of the `SolanaProjectQuiz` class: the question bank plus the
mutable session counters set in `__init__`. -/
structure SolanaProjectQuiz where
  questions : List Question
  score : Nat
  total_questions : Nat
deriving DecidableEq

/-- `SolanaProjectQuiz.__init__`: bank loaded, `score = 0`,
`total_questions = 0`. -/
def quizInit : SolanaProjectQuiz :=
  { questions := questionBank, score := 0, total_questions := 0 }

/-- One unit of user input delivered to `input()` inside the answer loop:
either a text line, or a `KeyboardInterrupt` raised while blocked. -/
inductive InputEvent where
  | line (s : String)
  | interrupt
deriving DecidableEq

/-- Everything the program prints, one event per `print` (or block of
purely decorative prints), carrying the interpolated data. -/
inductive OutEvent where
  /-- The header block of `run_quiz` (banner plus
  "You will be asked n random questions." and the bullet list). -/
  | banner (n : Int)
  /-- "Question i/n:" plus the question text. -/
  | questionHeader (i : Nat) (n : Int) (text : String)
  /-- One displayed option line "  k. option" (numbered from 1). -/
  | optionLine (k : Nat) (text : String)
  /-- "Please enter a number between 1 and k". -/
  | promptReject (k : Nat)
  /-- "Quiz interrupted." (printed in the `except` handler). -/
  | interruptedMsg
  /-- The "Correct!" feedback line. -/
  | correctMsg
  /-- The "Incorrect. The correct answer was: ..." feedback line. -/
  | incorrectMsg (correctText : String)
  /-- The "Explanation: ..." line. -/
  | explanationMsg (text : String)
  /-- The "QUIZ RESULTS" header block of `show_results`. -/
  | resultsHeader
  /-- "You scored: score/total (percentage%)". -/
  | scoreLine (score total : Nat) (percentage : ℚ)
  /-- The tier feedback message chosen by the percentage thresholds. -/
  | tierMsg (msg : String)
  /-- The closing "Resources:" block of `show_results`. -/
  | resources
  /-- "Usage: python solana_project_quiz.py [num_questions]". -/
  | usage
deriving DecidableEq

/-- How a single `while True` answer-collection loop ends. -/
inductive AnswerOutcome where
  /-- `break` with a valid 0-based `answer_idx`. -/
  | answered (idx : Nat)
  /-- The `except (ValueError, KeyboardInterrupt)` handler ran: the whole
  `run_quiz` call returns. -/
  | interrupted
  /-- The input stream was exhausted: `input()` raises an uncaught
  `EOFError`. -/
  | eof
deriving DecidableEq

/-- How a `run_quiz` call ends. -/
inductive RunEnding where
  /-- Fell through the question loop and called `show_results`. -/
  | completed
  /-- Early `return` from the `except (ValueError, KeyboardInterrupt)`
  handler; `show_results` is never reached. -/
  | earlyReturn
  /-- Uncaught `EOFError` from `input()`. -/
  | eofError
  /-- Uncaught `ValueError` raised by `random.sample` (negative or oversize
  sample size). -/
  | valueError
  /-- Model artifact: the random-pick oracle was out of range (no Python
  counterpart; `random.sample` always produces valid picks). -/
  | modelStuck
deriving DecidableEq

/-- Outcome of `main`. -/
inductive MainOutcome where
  /-- `sys.exit(1)` after the usage message. -/
  | usageExit
  /-- `run_quiz` was invoked and ended as recorded, leaving the object in
  the recorded state. -/
  | ran (e : RunEnding) (qz : SolanaProjectQuiz)
deriving DecidableEq

/-- Process exit status: `sys.exit(1)` and uncaught exceptions exit
non-zero, a normal return from `main` exits 0. -/
def exitCode : MainOutcome → Nat
  | .usageExit => 1
  | .ran .completed _ => 0
  | .ran .earlyReturn _ => 0
  | .ran .eofError _ => 1
  | .ran .valueError _ => 1
  | .ran .modelStuck _ => 1

/-- Checks that the tail of a Python integer literal body is made of digits
with underscores allowed only between digits (the head digit has already
been consumed). -/
def digitsRest : List Char → Bool
  | [] => true
  | '_' :: c :: rest => c.isDigit && digitsRest rest
  | '_' :: [] => false
  | c :: rest => c.isDigit && digitsRest rest

/-- Numeric value of a digit sequence, skipping underscores. -/
def digitsVal (cs : List Char) : Nat :=
  cs.foldl (fun n c => if c == '_' then n else 10 * n + (c.toNat - 48)) 0

/-- Parses an unsigned Python integer literal body: nonempty, leading
digit, underscores only between digits. -/
def parseDigits (cs : List Char) : Option Nat :=
  match cs with
  | [] => none
  | c :: rest =>
      if c.isDigit && digitsRest rest then some (digitsVal (c :: rest)) else none

/-- Python `int(s)` on a text line (the code also calls `.strip()` first):
surrounding whitespace ignored, optional single sign, then digits.
Returns `none` exactly when Python raises `ValueError`. -/
def pyInt (s : String) : Option Int :=
  let cs := ((s.toList.dropWhile Char.isWhitespace).reverse.dropWhile
    Char.isWhitespace).reverse
  match cs with
  | '-' :: rest => (parseDigits rest).map (fun m => -(m : Int))
  | '+' :: rest => (parseDigits rest).map (fun m => (m : Int))
  | rest => (parseDigits rest).map (fun m => (m : Int))

/-- Sampling without replacement driven by an oracle of picks: each step
picks an index into the remaining pool and removes that element. Returns
`none` when the oracle is exhausted or out of range (a model artifact). -/
def sampleAux {α : Type} : List α → Nat → List Nat → Option (List α)
  | _, 0, _ => some []
  | _, _ + 1, [] => none
  | pool, k + 1, p :: ps =>
      if h : p < pool.length then
        (sampleAux (pool.eraseIdx p) k ps).map (fun t => pool.get ⟨p, h⟩ :: t)
      else none

/-- Result of `random.sample`. -/
inductive SampleResult (α : Type) where
  /-- Normal return. -/
  | ok (l : List α)
  /-- Python raises `ValueError("Sample larger than population or is
  negative")` when not `0 <= k <= len(population)`. -/
  | valueError
  /-- Model artifact: invalid pick oracle. -/
  | badOracle
deriving DecidableEq

/-- `random.sample(pool, k)` with `k` an arbitrary integer (the code passes
`min(num_questions, len(self.questions))`, which is negative when the CLI
argument is negative). -/
def pySample {α : Type} (pool : List α) (k : Int) (picks : List Nat) :
    SampleResult α :=
  if k < 0 ∨ (pool.length : Int) < k then .valueError
  else
    match sampleAux pool k.toNat picks with
    | some l => .ok l
    | none => .badOracle

/-- `random.shuffle(l)` modelled extensionally: draw all of `l` without
replacement as directed by the oracle. An invalid oracle leaves the list
unchanged; either way the result is a permutation of `l`. -/
def shuffleWith {α : Type} (l : List α) (picks : List Nat) : List α :=
  match sampleAux l l.length picks with
  | some l2 => l2
  | none => l

/-- The `while True` answer-collection loop (lines 232-241): read a line,
strip and `int`-parse it; in-range values `break`; out-of-range values
re-prompt; `ValueError` (non-numeric) and `KeyboardInterrupt` are caught
by the same handler, which prints "Quiz interrupted." and returns from
`run_quiz`. Returns (outcome, printed events, remaining input). -/
def answerLoop (numOptions : Nat) :
    List InputEvent → AnswerOutcome × List OutEvent × List InputEvent
  | [] => (.eof, [], [])
  | .interrupt :: rest => (.interrupted, [.interruptedMsg], rest)
  | .line s :: rest =>
      match pyInt s with
      | none => (.interrupted, [.interruptedMsg], rest)
      | some n =>
          if 0 ≤ n - 1 ∧ n - 1 < (numOptions : Int) then
            (.answered (n - 1).toNat, [], rest)
          else
            let r := answerLoop numOptions rest
            (r.1, .promptReject numOptions :: r.2.1, r.2.2)

/-- `percentage` as computed in `show_results` (line 258), exactly over
rationals: `score / total * 100` when `total > 0`, else 0. -/
def percentage (score total : Nat) : ℚ :=
  if 0 < total then (score : ℚ) / (total : ℚ) * 100 else 0

/-- Tier message of `show_results` lines 265-272. -/
def tierMessage (p : ℚ) : String :=
  if 90 ≤ p then "🏆 Outstanding! You\x27re a Solana expert!"
  else if 75 ≤ p then "🎉 Great job! You have a solid understanding of Solana development."
  else if 60 ≤ p then "👍 Good work! Review TEACHME.md for areas to improve."
  else "📚 Keep studying! Read TEACHME.md and try again."

/-- `SolanaProjectQuiz.show_results`: results header, score line,
tier message, resources block. -/
def show_results (qz : SolanaProjectQuiz) : List OutEvent :=
  [.resultsHeader,
   .scoreLine qz.score qz.total_questions (percentage qz.score qz.total_questions),
   .tierMsg (tierMessage (percentage qz.score qz.total_questions)),
   .resources]

/-- The `for i, q in enumerate(selected_questions, 1)` loop of `run_quiz`
(lines 215-251): shuffle the enumerated options, locate the correct
position, display, collect an answer, update the counters and print
feedback. `shuffles i` is the random-pick oracle for question `i`.
Returns the updated object, the printed events and how the loop ended. -/
def runQuestions (nReq : Int) (shuffles : Nat → List Nat) :
    List Question → Nat → List InputEvent → SolanaProjectQuiz →
    SolanaProjectQuiz × List OutEvent × RunEnding
  | [], _, _, qz => (qz, [], .completed)
  | q :: qs, i, inputs, qz =>
      let opts := shuffleWith q.options.enum (shuffles i)
      let cIdx := opts.findIdx (fun p => p.1 == q.correct)
      let header : List OutEvent :=
        .questionHeader i nReq q.question ::
          opts.enum.map (fun p => .optionLine (p.1 + 1) p.2.2)
      match answerLoop opts.length inputs with
      | (.answered aIdx, louts, rest) =>
          let good := aIdx == cIdx
          let qz2 : SolanaProjectQuiz :=
            { qz with total_questions := qz.total_questions + 1,
                      score := qz.score + (if good then 1 else 0) }
          let fb : List OutEvent :=
            if good then [.correctMsg]
            else [.incorrectMsg (q.options.getD q.correct "")]
          let r := runQuestions nReq shuffles qs (i + 1) rest qz2
          (r.1, header ++ louts ++ fb ++ .explanationMsg q.explanation :: r.2.1, r.2.2)
      | (.interrupted, louts, _) => (qz, header ++ louts, .earlyReturn)
      | (.eof, louts, _) => (qz, header ++ louts, .eofError)

/-- `SolanaProjectQuiz.run_quiz(num_questions)`: print the banner, sample
`min(num_questions, len(self.questions))` questions, run the question
loop, and call `show_results` only if the loop completed. -/
def run_quiz (qz : SolanaProjectQuiz) (nReq : Int) (samplePicks : List Nat)
    (shuffles : Nat → List Nat) (inputs : List InputEvent) :
    SolanaProjectQuiz × List OutEvent × RunEnding :=
  match pySample qz.questions (min nReq (qz.questions.length : Int)) samplePicks with
  | .valueError => (qz, [.banner nReq], .valueError)
  | .badOracle => (qz, [.banner nReq], .modelStuck)
  | .ok sel =>
      let r := runQuestions nReq shuffles sel 1 inputs qz
      if r.2.2 = RunEnding.completed then
        (r.1, .banner nReq :: r.2.1 ++ show_results r.1, .completed)
      else (r.1, .banner nReq :: r.2.1, r.2.2)

/-- The program's `main()` (named `quiz_main` here because Lean reserves
`main` for an `IO` entry point): build the quiz object; with no argument
run 10 questions; with an argument, `int`-parse it, printing the usage
message and calling `sys.exit(1)` on `ValueError`, else run that many.
`argv` is `sys.argv[1:]` (extra arguments are ignored, as in the code). -/
def quiz_main (argv : List String) (samplePicks : List Nat)
    (shuffles : Nat → List Nat) (inputs : List InputEvent) :
    List OutEvent × MainOutcome :=
  match argv with
  | [] =>
      let r := run_quiz quizInit 10 samplePicks shuffles inputs
      (r.2.1, .ran r.2.2 r.1)
  | a :: _ =>
      match pyInt a with
      | none => ([.usage], .usageExit)
      | some n =>
          let r := run_quiz quizInit n samplePicks shuffles inputs
          (r.2.1, .ran r.2.2 r.1)

/-! ### Helper lemmas about the sampling and shuffling model -/

open List in
theorem perm_cons_eraseIdx {α : Type} (l : List α) :
    ∀ (p : Nat) (h : p < l.length), l ~ l.get ⟨p, h⟩ :: l.eraseIdx p := by
  induction l with
  | nil => intro p h; simp at h
  | cons x xs ih =>
      intro p h
      cases p with
      | zero => simp
      | succ q =>
          have h2 : q < xs.length := by simpa using h
          have hx := (ih q h2).cons x
          simp only [List.get_cons_succ, List.eraseIdx_cons_succ]
          exact hx.trans (List.Perm.swap _ _ _)

theorem sampleAux_length {α : Type} :
    ∀ (k : Nat) (pool : List α) (ps : List Nat) (l : List α),
      sampleAux pool k ps = some l → l.length = k := by
  intro k
  induction k with
  | zero => intro pool ps l h; simp [sampleAux] at h; simp [← h]
  | succ m ih =>
      intro pool ps l h
      cases ps with
      | nil => simp [sampleAux] at h
      | cons p ps =>
          simp only [sampleAux] at h
          split at h
          · rw [Option.map_eq_some'] at h
            obtain ⟨t, ht, rfl⟩ := h
            simp [ih (pool.eraseIdx p) ps t ht]
          · exact absurd h (by simp)

open List in
theorem sampleAux_subperm {α : Type} :
    ∀ (k : Nat) (pool : List α) (ps : List Nat) (l : List α),
      sampleAux pool k ps = some l → l <+~ pool := by
  intro k
  induction k with
  | zero =>
      intro pool ps l h
      simp only [sampleAux, Option.some.injEq] at h
      cases h
      exact List.nil_subperm
  | succ m ih =>
      intro pool ps l h
      cases ps with
      | nil => simp [sampleAux] at h
      | cons p ps =>
          simp only [sampleAux] at h
          split at h
          case isTrue hp =>
            rw [Option.map_eq_some'] at h
            obtain ⟨t, ht, rfl⟩ := h
            have hsub := ih (pool.eraseIdx p) ps t ht
            have hcons : pool.get ⟨p, hp⟩ :: t <+~ pool.get ⟨p, hp⟩ :: pool.eraseIdx p :=
              (List.subperm_cons _).mpr hsub
            exact hcons.trans (perm_cons_eraseIdx pool p hp).symm.subperm
          case isFalse => exact absurd h (by simp)

theorem sampleAux_nodup {α : Type} (k : Nat) (pool : List α) (ps : List Nat)
    (l : List α) (hp : pool.Nodup) (h : sampleAux pool k ps = some l) :
    l.Nodup := by
  obtain ⟨l2, hperm, hsub⟩ := sampleAux_subperm k pool ps l h
  exact hperm.nodup_iff.mp (hsub.nodup hp)

open List in
theorem sampleAux_perm {α : Type} (pool : List α) (ps : List Nat)
    (l : List α) (h : sampleAux pool pool.length ps = some l) : l ~ pool :=
  (sampleAux_subperm pool.length pool ps l h).perm_of_length_le
    (by rw [sampleAux_length pool.length pool ps l h])

open List in
theorem shuffleWith_perm {α : Type} (l : List α) (picks : List Nat) :
    shuffleWith l picks ~ l := by
  unfold shuffleWith
  cases hs : sampleAux l l.length picks with
  | none => simp
  | some l2 => simpa using sampleAux_perm l picks l2 hs

/-- The hard-coded bank contains 30 pairwise-distinct question records. -/
theorem questionBank_nodup : questionBank.Nodup := by decide

/-- Every event printed inside the answer-collection loop is either an
out-of-range re-prompt or the "Quiz interrupted." message. -/
theorem answerLoop_out_mem :
    ∀ (ins : List InputEvent) (k : Nat) (o : OutEvent),
      o ∈ (answerLoop k ins).2.1 →
      o = OutEvent.promptReject k ∨ o = OutEvent.interruptedMsg := by
  intro ins
  induction ins with
  | nil => intro k o h; simp [answerLoop] at h
  | cons e rest ih =>
      intro k o h
      cases e with
      | interrupt => simp [answerLoop] at h; simp [h]
      | line s =>
          simp only [answerLoop] at h
          cases hp : pyInt s with
          | none => rw [hp] at h; simp at h; simp [h]
          | some n =>
              rw [hp] at h
              dsimp only at h
              by_cases hc : 0 ≤ n - 1 ∧ n - 1 < (k : Int)
              · rw [if_pos hc] at h; simp at h
              · rw [if_neg hc] at h
                simp at h
                rcases h with h | h
                · simp [h]
                · exact ih k o h

/-- The question loop never touches the `questions` field of the object. -/
theorem runQuestions_questions_eq (nReq : Int) (sh : Nat → List Nat) :
    ∀ (qs : List Question) (i : Nat) (ins : List InputEvent)
      (qz : SolanaProjectQuiz),
      (runQuestions nReq sh qs i ins qz).1.questions = qz.questions := by
  intro qs
  induction qs with
  | nil => intro i ins qz; rfl
  | cons q qs ih =>
      intro i ins qz
      simp only [runQuestions]
      rcases hA : answerLoop (shuffleWith q.options.enum (sh i)).length ins
        with ⟨o, louts, rest⟩
      cases o with
      | answered aIdx => simpa using ih (i + 1) rest _
      | interrupted => rfl
      | eof => rfl

/-- The question loop preserves `score <= total_questions`: each answered
question adds 1 to `total_questions` and at most 1 to `score`. -/
theorem runQuestions_score_le (nReq : Int) (sh : Nat → List Nat) :
    ∀ (qs : List Question) (i : Nat) (ins : List InputEvent)
      (qz : SolanaProjectQuiz), qz.score ≤ qz.total_questions →
      (runQuestions nReq sh qs i ins qz).1.score ≤
        (runQuestions nReq sh qs i ins qz).1.total_questions := by
  intro qs
  induction qs with
  | nil => intro i ins qz h; exact h
  | cons q qs ih =>
      intro i ins qz h
      simp only [runQuestions]
      rcases hA : answerLoop (shuffleWith q.options.enum (sh i)).length ins
        with ⟨o, louts, rest⟩
      cases o with
      | answered aIdx =>
          refine ih (i + 1) rest _ ?_
          dsimp only
          split
          · omega
          · omega
      | interrupted => exact h
      | eof => exact h

/-- The question loop itself never prints the results header; only
`show_results` (reached on normal completion) does. -/
theorem runQuestions_no_results (nReq : Int) (sh : Nat → List Nat) :
    ∀ (qs : List Question) (i : Nat) (ins : List InputEvent)
      (qz : SolanaProjectQuiz),
      OutEvent.resultsHeader ∉ (runQuestions nReq sh qs i ins qz).2.1 := by
  intro qs
  induction qs with
  | nil => intro i ins qz; simp [runQuestions]
  | cons q qs ih =>
      intro i ins qz
      simp only [runQuestions]
      rcases hA : answerLoop (shuffleWith q.options.enum (sh i)).length ins
        with ⟨o, louts, rest⟩
      have hl : OutEvent.resultsHeader ∉ louts := by
        intro hmem
        have := answerLoop_out_mem ins (shuffleWith q.options.enum (sh i)).length
          OutEvent.resultsHeader (by rw [hA]; exact hmem)
        simp at this
      cases o with
      | answered aIdx =>
          dsimp only
          split <;> simp [hl, ih]
      | interrupted => dsimp only; simp [hl]
      | eof => dsimp only; simp [hl]

/-- With `score <= total`, the computed percentage lies in `[0, 100]`. -/
theorem percentage_mem_Icc (s t : Nat) (h : s ≤ t) :
    0 ≤ percentage s t ∧ percentage s t ≤ 100 := by
  unfold percentage
  split
  case isTrue ht =>
    constructor
    · positivity
    · have htq : (0 : ℚ) < (t : ℚ) := by exact_mod_cast ht
      have hsq : (s : ℚ) ≤ (t : ℚ) := by exact_mod_cast h
      rw [div_mul_eq_mul_div, div_le_iff₀ htq]
      nlinarith
  case isFalse => norm_num

/-- Helper: every `run_quiz` call prints the banner first, whatever else
happens. -/
theorem run_quiz_banner_head (qz : SolanaProjectQuiz) (n : Int) (sp : List Nat)
    (sh : Nat → List Nat) (ins : List InputEvent) :
    (run_quiz qz n sp sh ins).2.1.head? = some (OutEvent.banner n) := by
  unfold run_quiz
  cases pySample qz.questions (min n (qz.questions.length : Int)) sp with
  | ok sel => dsimp only; split <;> rfl
  | valueError => rfl
  | badOracle => rfl

/-! ### Claim theorems -/

/-- C1 (counterexample): the claim says a non-numeric input line during
answer collection is rejected with a re-prompt and never aborts the
question or the quiz. On the code it is false: typing "abc" at the first
question makes the `except (ValueError, KeyboardInterrupt)` handler print
"Quiz interrupted." and return from `run_quiz` with zero questions
answered and no results output. -/
theorem C1_counterexample :
    (run_quiz quizInit 1 [0] (fun _ => [0, 0]) [InputEvent.line "abc"]).2.2 =
      RunEnding.earlyReturn ∧
    (run_quiz quizInit 1 [0] (fun _ => [0, 0])
      [InputEvent.line "abc"]).1.total_questions = 0 ∧
    OutEvent.interruptedMsg ∈
      (run_quiz quizInit 1 [0] (fun _ => [0, 0]) [InputEvent.line "abc"]).2.1 ∧
    OutEvent.resultsHeader ∉
      (run_quiz quizInit 1 [0] (fun _ => [0, 0]) [InputEvent.line "abc"]).2.1 := by
  decide

/-- C1 (amended): during answer collection, an out-of-range NUMERIC line is
rejected with the "Please enter a number between 1 and k" re-prompt and the
loop continues on the remaining input; an in-range numeric line `n` is
accepted as 0-based index `n - 1`; a NON-numeric line is caught by the same
handler as a keyboard interrupt, printing "Quiz interrupted." and aborting
the quiz (early return, no results). -/
theorem C1_amended_answer_loop (k : Nat) (s : String) (rest : List InputEvent) :
    (∀ n : Int, pyInt s = some n → ¬(0 ≤ n - 1 ∧ n - 1 < (k : Int)) →
      answerLoop k (InputEvent.line s :: rest) =
        ((answerLoop k rest).1,
         OutEvent.promptReject k :: (answerLoop k rest).2.1,
         (answerLoop k rest).2.2)) ∧
    (∀ n : Int, pyInt s = some n → 0 ≤ n - 1 → n - 1 < (k : Int) →
      answerLoop k (InputEvent.line s :: rest) =
        (AnswerOutcome.answered (n - 1).toNat, [], rest)) ∧
    (pyInt s = none →
      answerLoop k (InputEvent.line s :: rest) =
        (AnswerOutcome.interrupted, [OutEvent.interruptedMsg], rest)) ∧
    answerLoop k (InputEvent.interrupt :: rest) =
      (AnswerOutcome.interrupted, [OutEvent.interruptedMsg], rest) := by
  refine ⟨fun n hp hc => ?_, fun n hp h0 h1 => ?_, fun hp => ?_, rfl⟩
  · simp only [answerLoop, hp]
    rw [if_neg hc]
  · simp only [answerLoop, hp]
    rw [if_pos ⟨h0, h1⟩]
  · simp only [answerLoop, hp]

/-- C1 (witness): the out-of-range line "5" with two options is re-prompted
and the loop continues. -/
theorem C1_amended_witness :
    (pyInt "5" = some 5 ∧
      ¬(0 ≤ (5 : Int) - 1 ∧ (5 : Int) - 1 < ((2 : Nat) : Int))) ∧
    answerLoop 2 [InputEvent.line "5"] =
      ((answerLoop 2 []).1, OutEvent.promptReject 2 :: (answerLoop 2 []).2.1,
       (answerLoop 2 []).2.2) :=
  ⟨⟨by decide, by decide⟩,
   (C1_amended_answer_loop 2 "5" []).1 5 (by decide) (by decide)⟩

/-- C2 (counterexample): the claim says an interrupt proceeds straight to
the results summary over the questions answered so far. On the code it is
false: interrupting after answering 3 of 10 requested questions makes
`run_quiz` return early; `total_questions` is indeed 3, but `show_results`
is never called — no results header (and hence no report) is printed. -/
theorem C2_counterexample :
    (run_quiz quizInit 10 [0, 0, 0, 0, 0, 0, 0, 0, 0, 0] (fun _ => [0, 0])
        [InputEvent.line "1", InputEvent.line "1", InputEvent.line "1",
         InputEvent.interrupt]).2.2 = RunEnding.earlyReturn ∧
    (run_quiz quizInit 10 [0, 0, 0, 0, 0, 0, 0, 0, 0, 0] (fun _ => [0, 0])
        [InputEvent.line "1", InputEvent.line "1", InputEvent.line "1",
         InputEvent.interrupt]).1.total_questions = 3 ∧
    OutEvent.resultsHeader ∉
      (run_quiz quizInit 10 [0, 0, 0, 0, 0, 0, 0, 0, 0, 0] (fun _ => [0, 0])
        [InputEvent.line "1", InputEvent.line "1", InputEvent.line "1",
         InputEvent.interrupt]).2.1 := by
  decide

/-- C2 (amended): a cancellation signal during input collection aborts the
remaining quiz immediately via an early return, and NO results summary is
printed at all (the session state still counts only the questions answered
before the interrupt). -/
theorem C2_amended_no_results (qz : SolanaProjectQuiz) (n : Int) (sp : List Nat)
    (sh : Nat → List Nat) (ins : List InputEvent)
    (h : (run_quiz qz n sp sh ins).2.2 = RunEnding.earlyReturn) :
    OutEvent.resultsHeader ∉ (run_quiz qz n sp sh ins).2.1 := by
  unfold run_quiz at h ⊢
  cases hps : pySample qz.questions (min n (qz.questions.length : Int)) sp with
  | valueError => rw [hps] at h; simp at h
  | badOracle => rw [hps] at h; simp at h
  | ok sel =>
      rw [hps] at h
      dsimp only at h ⊢
      by_cases hcomp : (runQuestions n sh sel 1 ins qz).2.2 = RunEnding.completed
      · rw [if_pos hcomp] at h; simp at h
      · rw [if_neg hcomp]
        simp [runQuestions_no_results]

/-- C2 (witness): an immediate interrupt on a 1-question run ends with an
early return and no results output. -/
theorem C2_amended_witness :
    ((run_quiz quizInit 1 [0] (fun _ => [0, 0]) [InputEvent.interrupt]).2.2 =
      RunEnding.earlyReturn) ∧
    OutEvent.resultsHeader ∉
      (run_quiz quizInit 1 [0] (fun _ => [0, 0]) [InputEvent.interrupt]).2.1 :=
  ⟨by decide,
   C2_amended_no_results quizInit 1 [0] (fun _ => [0, 0]) [InputEvent.interrupt]
     (by decide)⟩

/-- C3: a CLI argument that does not parse as an integer yields exactly the
usage message on standard output and `sys.exit(1)` (non-zero exit, no
questions presented); with the argument omitted the question count defaults
to 10 (the run starts with the banner announcing 10). -/
theorem C3_cli_argument (a : String) (sp : List Nat) (sh : Nat → List Nat)
    (ins : List InputEvent) (h : pyInt a = none) :
    quiz_main [a] sp sh ins = ([OutEvent.usage], MainOutcome.usageExit) ∧
    exitCode MainOutcome.usageExit = 1 ∧
    (quiz_main [] sp sh ins).1.head? = some (OutEvent.banner 10) := by
  refine ⟨by simp [quiz_main, h], rfl, ?_⟩
  simp only [quiz_main]
  exact run_quiz_banner_head quizInit 10 sp sh ins

/-- C3 (witness): the argument "abc" triggers the usage exit. -/
theorem C3_witness :
    pyInt "abc" = none ∧
    (quiz_main ["abc"] [] (fun _ => []) [] =
        ([OutEvent.usage], MainOutcome.usageExit) ∧
      exitCode MainOutcome.usageExit = 1 ∧
      (quiz_main [] [] (fun _ => []) []).1.head? = some (OutEvent.banner 10)) :=
  ⟨by decide, C3_cli_argument "abc" [] (fun _ => []) [] (by decide)⟩

/-- C4: for every requested count `n >= 0`, whenever
`random.sample(bank, min(n, len(bank)))` returns, the selected sequence has
length `min(n, 30)`, contains no duplicates, and draws only bank
questions. -/
theorem C4_sample_selection (n : Int) (picks : List Nat) (sel : List Question)
    (hn : 0 ≤ n)
    (hs : pySample questionBank (min n (questionBank.length : Int)) picks =
      SampleResult.ok sel) :
    sel.length = min n.toNat 30 ∧ sel.Nodup ∧ ∀ q ∈ sel, q ∈ questionBank := by
  unfold pySample at hs
  split at hs
  · exact absurd hs (by simp)
  case isFalse hguard =>
    cases hsa : sampleAux questionBank (min n (questionBank.length : Int)).toNat picks with
    | none => rw [hsa] at hs; exact absurd hs (by simp)
    | some l =>
        rw [hsa] at hs
        simp only [SampleResult.ok.injEq] at hs
        subst hs
        refine ⟨?_, sampleAux_nodup _ _ _ _ questionBank_nodup hsa,
          fun q hq => (sampleAux_subperm _ _ _ _ hsa).subset hq⟩
        rw [sampleAux_length _ _ _ _ hsa]
        have hlen : questionBank.length = 30 := by rfl
        rw [hlen]
        omega

/-- C4 (witness): requesting 2 with picks [0, 0] selects the first two bank
questions: length 2, no duplicates, all from the bank. -/
theorem C4_witness :
    ((0 : Int) ≤ 2 ∧
      pySample questionBank (min 2 (questionBank.length : Int)) [0, 0] =
        SampleResult.ok (questionBank.take 2)) ∧
    ((questionBank.take 2).length = min (2 : Int).toNat 30 ∧
      (questionBank.take 2).Nodup ∧
      ∀ q ∈ questionBank.take 2, q ∈ questionBank) :=
  ⟨⟨by decide, by decide⟩,
   C4_sample_selection 2 [0, 0] (questionBank.take 2) (by decide) (by decide)⟩

/-- C5: a requested count of 0 selects nothing, presents no question, and
goes straight to the results report showing 0/0, percentage 0, and the
lowest-tier message, for every random oracle and input stream. -/
theorem C5_zero_count (sp : List Nat) (sh : Nat → List Nat)
    (ins : List InputEvent) :
    run_quiz quizInit 0 sp sh ins =
      (quizInit,
       [OutEvent.banner 0, OutEvent.resultsHeader, OutEvent.scoreLine 0 0 0,
        OutEvent.tierMsg "📚 Keep studying! Read TEACHME.md and try again.",
        OutEvent.resources],
       RunEnding.completed) := by
  rfl

/-- C6: `show_results` computes percentage = score/answered*100 exactly when
answered > 0 (else 0) and maps it to exactly one of four fixed tiers with
inclusive lower bounds 90, 75, 60; the boundary values themselves belong to
the higher tier. -/
theorem C6_results_tiers (s t : Nat) (p : ℚ) :
    (0 < t → percentage s t = (s : ℚ) / (t : ℚ) * 100) ∧
    percentage s 0 = 0 ∧
    (90 ≤ p → tierMessage p = "🏆 Outstanding! You\x27re a Solana expert!") ∧
    (75 ≤ p → p < 90 →
      tierMessage p =
        "🎉 Great job! You have a solid understanding of Solana development.") ∧
    (60 ≤ p → p < 75 →
      tierMessage p = "👍 Good work! Review TEACHME.md for areas to improve.") ∧
    (p < 60 →
      tierMessage p = "📚 Keep studying! Read TEACHME.md and try again.") := by
  refine ⟨fun ht => ?_, by simp [percentage], fun h90 => ?_,
    fun h75 h90 => ?_, fun h60 h75 => ?_, fun h60 => ?_⟩
  · simp [percentage, ht]
  · simp [tierMessage, h90]
  · rw [tierMessage, if_neg (by linarith), if_pos h75]
  · rw [tierMessage, if_neg (by linarith), if_neg (by linarith), if_pos h60]
  · rw [tierMessage, if_neg (by linarith), if_neg (by linarith),
      if_neg (by linarith)]

/-- C6 (witness): 27/30 gives exactly 90 percent; 90 maps to the top tier
and 59 to the lowest tier. -/
theorem C6_witness :
    (0 < 30 ∧ (90 : ℚ) ≤ 90 ∧ (59 : ℚ) < 60) ∧
    (percentage 27 30 = (27 : ℚ) / (30 : ℚ) * 100 ∧
      tierMessage 90 = "🏆 Outstanding! You\x27re a Solana expert!" ∧
      tierMessage 59 = "📚 Keep studying! Read TEACHME.md and try again.") :=
  ⟨⟨by decide, by norm_num, by norm_num⟩,
   ⟨(C6_results_tiers 27 30 90).1 (by decide),
    (C6_results_tiers 27 30 90).2.2.1 (by norm_num),
    (C6_results_tiers 27 30 59).2.2.2.2.2 (by norm_num)⟩⟩

/-- C7: starting from any session state with `score <= total_questions`
(in particular the initial 0/0 state), after any portion of the question
loop the state still satisfies `score <= total_questions`, and the computed
percentage lies in [0, 100]. Since every intermediate point of a run is the
final state of the loop on a prefix of the questions, the invariant holds
at every point. -/
theorem C7_score_invariant (nReq : Int) (sh : Nat → List Nat)
    (qs : List Question) (i : Nat) (ins : List InputEvent)
    (qz : SolanaProjectQuiz) (h : qz.score ≤ qz.total_questions) :
    (runQuestions nReq sh qs i ins qz).1.score ≤
      (runQuestions nReq sh qs i ins qz).1.total_questions ∧
    0 ≤ percentage (runQuestions nReq sh qs i ins qz).1.score
        (runQuestions nReq sh qs i ins qz).1.total_questions ∧
    percentage (runQuestions nReq sh qs i ins qz).1.score
        (runQuestions nReq sh qs i ins qz).1.total_questions ≤ 100 := by
  have hle := runQuestions_score_le nReq sh qs i ins qz h
  exact ⟨hle, (percentage_mem_Icc _ _ hle).1, (percentage_mem_Icc _ _ hle).2⟩

/-- C7 (witness): one answered question from the initial state keeps the
invariant and the percentage bounds. -/
theorem C7_witness :
    (quizInit.score ≤ quizInit.total_questions) ∧
    ((runQuestions 1 (fun _ => [0, 0]) (questionBank.take 1) 1
        [InputEvent.line "1"] quizInit).1.score ≤
      (runQuestions 1 (fun _ => [0, 0]) (questionBank.take 1) 1
        [InputEvent.line "1"] quizInit).1.total_questions ∧
      0 ≤ percentage (runQuestions 1 (fun _ => [0, 0]) (questionBank.take 1) 1
          [InputEvent.line "1"] quizInit).1.score
          (runQuestions 1 (fun _ => [0, 0]) (questionBank.take 1) 1
          [InputEvent.line "1"] quizInit).1.total_questions ∧
      percentage (runQuestions 1 (fun _ => [0, 0]) (questionBank.take 1) 1
          [InputEvent.line "1"] quizInit).1.score
          (runQuestions 1 (fun _ => [0, 0]) (questionBank.take 1) 1
          [InputEvent.line "1"] quizInit).1.total_questions ≤ 100) :=
  ⟨by decide,
   C7_score_invariant 1 (fun _ => [0, 0]) (questionBank.take 1) 1
     [InputEvent.line "1"] quizInit (by decide)⟩

/-- C8: for every presented question, the displayed option texts are a
permutation of the original options, exactly one displayed position carries
the original correct index, and the option text at the recorded correct
position (`correct_idx`, computed by `findIdx`) equals the original correct
option text `options[correctIndex]`. -/
theorem C8_option_shuffle (opts : List String) (c : Nat) (picks : List Nat)
    (hc : c < opts.length) :
    List.Perm ((shuffleWith opts.enum picks).map Prod.snd) opts ∧
    (shuffleWith opts.enum picks).countP (fun p => p.1 == c) = 1 ∧
    ∃ h : (shuffleWith opts.enum picks).findIdx (fun p => p.1 == c) <
        (shuffleWith opts.enum picks).length,
      ((shuffleWith opts.enum picks).get
        ⟨(shuffleWith opts.enum picks).findIdx (fun p => p.1 == c), h⟩).1 = c ∧
      ((shuffleWith opts.enum picks).get
        ⟨(shuffleWith opts.enum picks).findIdx (fun p => p.1 == c), h⟩).2 =
        opts.get ⟨c, hc⟩ := by
  have hperm : List.Perm (shuffleWith opts.enum picks) opts.enum :=
    shuffleWith_perm _ _
  refine ⟨?_, ?_, ?_⟩
  · exact (hperm.map Prod.snd).trans (by rw [List.enum_map_snd])
  · rw [hperm.countP_eq]
    have h1 : opts.enum.countP (fun p => p.1 == c) =
        (opts.enum.map Prod.fst).countP (fun x => x == c) := by
      rw [List.countP_map]
      rfl
    rw [h1, List.enum_map_fst, ← List.count_eq_countP]
    exact List.count_eq_one_of_mem (List.nodup_range opts.length) (by simpa using hc)
  · have hmem : ((c, opts.get ⟨c, hc⟩) : Nat × String) ∈ shuffleWith opts.enum picks := by
      rw [hperm.mem_iff]
      exact List.mem_enum_iff_get?.mpr (by simp [List.get?_eq_get hc])
    have hlt : (shuffleWith opts.enum picks).findIdx (fun p => p.1 == c) <
        (shuffleWith opts.enum picks).length :=
      List.findIdx_lt_length_of_exists ⟨_, hmem, by simp⟩
    refine ⟨hlt, ?_, ?_⟩
    · have := @List.findIdx_get _ _ _ hlt
      simpa using this
    · have hfst : ((shuffleWith opts.enum picks).get
          ⟨(shuffleWith opts.enum picks).findIdx (fun p => p.1 == c), hlt⟩).1 = c := by
        have := @List.findIdx_get _ _ _ hlt
        simpa using this
      have hmem2 : (shuffleWith opts.enum picks).get
          ⟨(shuffleWith opts.enum picks).findIdx (fun p => p.1 == c), hlt⟩ ∈
          opts.enum := by
        rw [← hperm.mem_iff]
        exact List.get_mem _ _ _
      have := List.mem_enum_iff_get?.mp hmem2
      rw [hfst] at this
      rw [List.get?_eq_get hc] at this
      exact (Option.some.inj this).symm

/-- C8 (witness): shuffling the two options of a question with the
reversing oracle keeps them a permutation with a unique correct slot. -/
theorem C8_witness :
    1 < (["x", "y"] : List String).length ∧
    (List.Perm ((shuffleWith (["x", "y"] : List String).enum [1, 0]).map
        Prod.snd) ["x", "y"] ∧
      (shuffleWith (["x", "y"] : List String).enum [1, 0]).countP
        (fun p => p.1 == 1) = 1 ∧
      ∃ h : (shuffleWith (["x", "y"] : List String).enum [1, 0]).findIdx
          (fun p => p.1 == 1) <
          (shuffleWith (["x", "y"] : List String).enum [1, 0]).length,
        ((shuffleWith (["x", "y"] : List String).enum [1, 0]).get
          ⟨(shuffleWith (["x", "y"] : List String).enum [1, 0]).findIdx
            (fun p => p.1 == 1), h⟩).1 = 1 ∧
        ((shuffleWith (["x", "y"] : List String).enum [1, 0]).get
          ⟨(shuffleWith (["x", "y"] : List String).enum [1, 0]).findIdx
            (fun p => p.1 == 1), h⟩).2 =
          (["x", "y"] : List String).get ⟨1, by decide⟩) :=
  ⟨by decide, C8_option_shuffle ["x", "y"] 1 [1, 0] (by decide)⟩

/-- C9: the question bank is never mutated: any `run_quiz` call (completed,
interrupted, or crashed) leaves the `questions` field exactly as it was,
and the bank constructed at startup is the 30-entry literal. The embedded
shuffle operates on the fresh list `list(enumerate(q[options]))`, not on
the bank entries. -/
theorem C9_bank_immutable (qz : SolanaProjectQuiz) (n : Int) (sp : List Nat)
    (sh : Nat → List Nat) (ins : List InputEvent) :
    (run_quiz qz n sp sh ins).1.questions = qz.questions ∧
    quizInit.questions = questionBank := by
  refine ⟨?_, rfl⟩
  unfold run_quiz
  cases pySample qz.questions (min n (qz.questions.length : Int)) sp with
  | ok sel =>
      dsimp only
      split
      · exact runQuestions_questions_eq n sh sel 1 ins qz
      · exact runQuestions_questions_eq n sh sel 1 ins qz
  | valueError => rfl
  | badOracle => rfl

/-- C10: a CLI argument parsing to a negative integer passes argument
parsing (no usage message), but `random.sample` raises an unhandled
`ValueError` right after the banner: the run produces only the banner
(no question, no results) and the process exits non-zero. -/
theorem C10_negative_count_crash (a : String) (n : Int) (sp : List Nat)
    (sh : Nat → List Nat) (ins : List InputEvent)
    (hp : pyInt a = some n) (hn : n < 0) :
    quiz_main [a] sp sh ins =
      ([OutEvent.banner n], MainOutcome.ran RunEnding.valueError quizInit) ∧
    exitCode (MainOutcome.ran RunEnding.valueError quizInit) = 1 := by
  refine ⟨?_, rfl⟩
  have hs : pySample quizInit.questions
      (min n (quizInit.questions.length : Int)) sp = SampleResult.valueError := by
    unfold pySample
    rw [if_pos]
    exact Or.inl (lt_of_le_of_lt (min_le_left _ _) hn)
  simp only [quiz_main, hp]
  unfold run_quiz
  rw [hs]

/-- C10 (witness): the argument "-5" parses, then crashes in sampling. -/
theorem C10_witness :
    (pyInt "-5" = some (-5) ∧ (-5 : Int) < 0) ∧
    (quiz_main ["-5"] [] (fun _ => []) [] =
        ([OutEvent.banner (-5)], MainOutcome.ran RunEnding.valueError quizInit) ∧
      exitCode (MainOutcome.ran RunEnding.valueError quizInit) = 1) :=
  ⟨⟨by decide, by decide⟩,
   C10_negative_count_crash "-5" (-5) [] (fun _ => []) [] (by decide) (by decide)⟩
